import Mathlib

/-!
Shallow embedding of the youtube-dl extractor plugins in `src/youtube_dl/extractor/`
(appletrailers.py, ertflix.py, livestreamfails.py, nrk.py, rai.py) and proofs about
the specified properties.

Conventions:
* Python exceptions are modelled by the inductive `PyErr`; fallible code returns
  `Except PyErr _`.
* Python `dict.get(k)` (absent key allowed) is modelled by an `Option` field;
  `dict[k]` (raises `KeyError`) is modelled by `require`.
* Python floats that the extractors manipulate are decimal strings; they are
  modelled by `ℚ` with an explicit decimal parser.
* Strings are processed as `List Char`, with structural recursion, so that every
  definition evaluates by kernel reduction.
-/

/-- The exception taxonomy the extractors use.  Here `extractorError` is the
generic youtube-dl `ExtractorError` (with its `expected` flag); `geoRestricted`
is `GeoRestrictedError` carrying the allowed-country list; the remaining
constructors are the Python builtins the code can raise. -/
inductive PyErr where
  | extractorError (msg : String) (expected : Bool)
  | geoRestricted (countries : List String)
  | valueError (msg : String)
  | typeError (msg : String)
  | indexError
  | keyError (k : String)
deriving DecidableEq, Repr

/-- Holds exactly on the `geoRestricted` constructor: the discriminator that
makes a geo-restriction error distinguishable from the generic errors. -/
def PyErr.isGeoRestrictedErr : PyErr → Bool
  | .geoRestricted _ => true
  | _ => false

deriving instance DecidableEq for Except

/-- Python `d[k]` on a modelled optional field: `KeyError` when absent. -/
def require {α : Type} (v : Option α) (e : PyErr) : Except PyErr α :=
  match v with
  | some x => .ok x
  | none => .error e

/-- One candidate downloadable rendition, the union of the format-dict keys the
five extractors emit (`url`, `format_id`, `ext`, `format`, `width`, `height`, `tbr`).
A `none` field models an absent dict key (or an explicit `None` value). -/
structure FormatCandidate where
  url : String
  format_id : Option String := none
  ext : Option String := none
  format : Option String := none
  width : Option Int := none
  height : Option Int := none
  tbr : Option Int := none
deriving DecidableEq, Repr

/-! ## Character/string utilities mirroring the Python builtins used by the code -/

/-- Python `str.split(sep)` for a one-character separator (keeps empty pieces,
always returns at least one piece). -/
def splitOnChar (sep : Char) : List Char → List (List Char)
  | [] => [[]]
  | c :: cs =>
    let r := splitOnChar sep cs
    if c = sep then [] :: r
    else
      match r with
      | [] => [[c]]
      | h :: t => (c :: h) :: t

/-- Digits to the natural number they denote. -/
def digitsToNat (cs : List Char) : ℕ :=
  cs.foldl (fun a c => a * 10 + (c.toNat - 48)) 0

/-- Python `int(s)` on a character list: an optional sign followed by at least
one digit.  (Whitespace stripping and underscore separators are not modelled;
no input in this development uses them.) -/
def pyIntL? (cs : List Char) : Option ℤ :=
  let neg : Bool := cs.head? = some '-'
  let body := if cs.head? = some '-' ∨ cs.head? = some '+' then cs.drop 1 else cs
  if body ≠ [] ∧ body.all Char.isDigit then
    some (if neg then -(digitsToNat body : ℤ) else (digitsToNat body : ℤ))
  else none

/-- Python `int(s)` on a string. -/
def pyInt? (s : String) : Option ℤ := pyIntL? s.toList

/-- Python `float(s)` on the decimal forms the sites emit: an optional sign, an
integer part and/or a fractional part separated by a dot.  Exponent and
`inf`/`nan` forms are not modelled; no input in this development uses them.
Malformed input gives `none` (Python: `ValueError`). -/
def pyFloatRaw? (cs : List Char) : Option (Bool × ℕ × ℕ × ℕ) :=
  let neg : Bool := cs.head? = some '-'
  let body := if cs.head? = some '-' ∨ cs.head? = some '+' then cs.drop 1 else cs
  let intPart := body.takeWhile Char.isDigit
  let rest := body.drop intPart.length
  match rest with
  | [] =>
    if intPart = [] then none
    else some (neg, digitsToNat intPart, 0, 0)
  | r :: frac =>
    if r = '.' ∧ frac.all Char.isDigit ∧ (intPart ≠ [] ∨ frac ≠ []) then
      some (neg, digitsToNat intPart, digitsToNat frac, frac.length)
    else none

/-- The rational value denoted by a parsed sign/integer-part/fraction-part triple. -/
def ratOfRaw : Bool × ℕ × ℕ × ℕ → ℚ
  | (neg, i, f, k) => (if neg then -1 else 1) * ((i : ℚ) + (f : ℚ) / ((10 : ℚ) ^ k))

/-- Python `float(s)` as a rational. -/
def pyFloatL? (cs : List Char) : Option ℚ := (pyFloatRaw? cs).map ratOfRaw

/-- Python `float(s)` on a string. -/
def pyFloat? (s : String) : Option ℚ := pyFloatL? s.toList

/-! ## nrk.py: `NRKTVIE._str2seconds` (caption time-code parsing) -/

/-- Model of `NRKTVIE._str2seconds` (nrk.py lines 105-111): the input is split
on colons; `parts[2]` raises `IndexError` when there are fewer than three
pieces (not caught); a `float` failure on the seconds piece is caught and
replaced by `0.0` (the source comments that NRK uses a negative duration for
copyright info); `int` failures on the hour and minute pieces propagate; the
result is hours times 3600 plus minutes times 60 plus the seconds value. -/
def str2seconds (t : String) : Except PyErr ℚ := do
  let parts := splitOnChar ':' t.toList
  let p2 ← require (parts.get? 2) .indexError
  let s : ℚ := (pyFloatL? p2).getD 0
  let h ← require (pyIntL? (parts.getD 0 [])) (.valueError "invalid literal for int")
  let m ← require (pyIntL? (parts.getD 1 [])) (.valueError "invalid literal for int")
  return (h : ℚ) * 3600 + (m : ℚ) * 60 + s

/-! ## livestreamfails.py: `LivestreamfailsIE`

Source, livestreamfails.py lines 11 and 27-50. -/

/-- A parsed `time.struct_time` restricted to the fields `calendar.timegm` reads. -/
structure StructTime where
  year : ℕ
  month : ℕ
  day : ℕ
  hour : ℕ
  minute : ℕ
  sec : ℕ
deriving DecidableEq, Repr

/-- Take a run of decimal digits of length between `lo` and `hi` whose value is
between `vlo` and `vhi`, mirroring the digit patterns `time.strptime` compiles
for its directives; returns the value and the rest of the input. -/
def takeBoundedDigits (lo hi vlo vhi : ℕ) (cs : List Char) : Option (ℕ × List Char) :=
  let ds := cs.takeWhile Char.isDigit
  let v := digitsToNat ds
  if lo ≤ ds.length ∧ ds.length ≤ hi ∧ vlo ≤ v ∧ v ≤ vhi then
    some (v, cs.drop ds.length)
  else none

/-- A single literal character of the format string. -/
def expectChar (c : Char) (cs : List Char) : Option (List Char) :=
  match cs with
  | [] => none
  | x :: rest => if x = c then some rest else none

/-- Model of `time.strptime` at the exact format string used at
livestreamfails.py line 38 (ISO date, literal T, time, fraction, literal Z).  `%Y` is four digits, `%m`/`%d`/`%H`/`%M`/`%S` are
one or two digits within their calendar ranges, `%f` is one to six digits (the
fraction is dropped: `struct_time` has no sub-second field).  `none` models the
`ValueError` Python raises on a mismatch. -/
def strptimeIsoMs (s : String) : Option StructTime := do
  let cs := s.toList
  let (y, cs) ← takeBoundedDigits 4 4 0 9999 cs
  let cs ← expectChar '-' cs
  let (mo, cs) ← takeBoundedDigits 1 2 1 12 cs
  let cs ← expectChar '-' cs
  let (d, cs) ← takeBoundedDigits 1 2 1 31 cs
  let cs ← expectChar 'T' cs
  let (h, cs) ← takeBoundedDigits 1 2 0 23 cs
  let cs ← expectChar ':' cs
  let (mi, cs) ← takeBoundedDigits 1 2 0 59 cs
  let cs ← expectChar ':' cs
  let (sec, cs) ← takeBoundedDigits 1 2 0 61 cs
  let cs ← expectChar '.' cs
  let (_, cs) ← takeBoundedDigits 1 6 0 999999 cs
  let cs ← expectChar 'Z' cs
  match cs with
  | [] => some ⟨y, mo, d, h, mi, sec⟩
  | _ => none

/-- Days from 1970-01-01 to year/month/day in the proleptic Gregorian calendar
(the standard days-from-civil algorithm matching the `calendar.timegm`
arithmetic), for years `≥ 1`. -/
def daysFromCivil (y m d : ℕ) : ℤ :=
  let yy := if m ≤ 2 then y - 1 else y
  let era := yy / 400
  let yoe := yy % 400
  let mp := (m + 9) % 12
  let doy := (153 * mp + 2) / 5 + d - 1
  let doe := yoe * 365 + yoe / 4 - yoe / 100 + doy
  (era * 146097 + doe : ℤ) - 719468

/-- Model of `calendar.timegm`: seconds since the Unix epoch of a
UTC-interpreted `struct_time` (no timezone adjustment). -/
def timegm (t : StructTime) : ℤ :=
  daysFromCivil t.year t.month t.day * 86400 +
    (t.hour * 3600 + t.minute * 60 + t.sec : ℕ)

/-- Drop a literal prefix, failing when absent. -/
def dropLit : List Char → List Char → Option (List Char)
  | [], cs => some cs
  | _ :: _, [] => none
  | p :: ps, c :: cs => if c = p then dropLit ps cs else none

/-- Consume a literal prefix when present, mirroring an optional regex group
whose presence is forced whenever the input starts with it. -/
def dropOpt (p : List Char) (cs : List Char) : List Char :=
  match dropLit p cs with
  | some rest => rest
  | none => cs

/-- Take the longest non-empty run of characters satisfying `p` (a regex `+`
quantifier over a character class); fails when the run is empty. -/
def takeWhile1 (p : Char → Bool) (cs : List Char) : Option (List Char × List Char) :=
  let t := cs.takeWhile p
  if t = [] then none else some (t, cs.drop t.length)

/-- Model of `re.match` against `LivestreamfailsIE._VALID_URL`
(`https?://(?:www\.)?livestreamfails\.com/clip/(?P<id>[0-9]+)`), returning the
named `id` group.  Totality of the function models that membership testing
never throws. -/
def lsfMatchId (url : String) : Option String := do
  let cs := url.toList
  let cs ← dropLit "http".toList cs
  let cs := dropOpt "s".toList cs
  let cs ← dropLit "://".toList cs
  let cs := dropOpt "www.".toList cs
  let cs ← dropLit "livestreamfails.com/clip/".toList cs
  let (ds, _) ← takeWhile1 Char.isDigit cs
  return ds.asString

/-- The JSON object at `https://api.livestreamfails.com/clip/<id>`, with one
`Option` field per key the extractor reads through `.get` (absent key ⇒ `none`).
`streamerLabel` models the `label` field of the `streamer` sub-object, read
through two chained `.get` calls. -/
structure LsfApi where
  createdAt : Option String := none
  sourceId : Option String := none
  videoId : Option String := none
  label : Option String := none
  streamerLabel : Option String := none
  imageId : Option String := none
deriving DecidableEq, Repr

/-- The record `LivestreamfailsIE._real_extract` returns. -/
structure LsfRecord where
  id : String
  display_id : Option String
  timestamp : Option ℤ
  url : String
  title : Option String
  creator : Option String
  thumbnail : String
deriving DecidableEq, Repr

/-- The timestamp computation of `LivestreamfailsIE._real_extract`
(livestreamfails.py lines 35-40): a falsy `createdAt` is left as absent; a
truthy one is parsed with `time.strptime` — an unparseable value raises
`ValueError` — then converted with `calendar.timegm`. -/
def lsfTimestamp (createdAt : Option String) : Except PyErr (Option ℤ) :=
  match createdAt with
  | none => .ok none
  | some s =>
    if s = "" then .ok none
    else
      match strptimeIsoMs s with
      | none => .error (.valueError "time data does not match format")
      | some t => .ok (some (timegm t))

/-- Model of `LivestreamfailsIE._real_extract` from the decoded API response onwards
(livestreamfails.py lines 34-50): the timestamp computation above, then the
record build — the media URL and thumbnail are string concatenations onto
fixed CDN prefixes, which raise `TypeError` when `.get` returned `None`. -/
def lsfRealExtract (id : String) (api : LsfApi) : Except PyErr LsfRecord := do
  let timestamp : Option ℤ ← lsfTimestamp api.createdAt
  let videoId ← require api.videoId
    (.typeError "can only concatenate str (not NoneType) to str")
  let imageId ← require api.imageId
    (.typeError "can only concatenate str (not NoneType) to str")
  return {
    id := id
    display_id := api.sourceId
    timestamp := timestamp
    url := "https://livestreamfails-video-prod.b-cdn.net/video/" ++ videoId
    title := api.label
    creator := api.streamerLabel
    thumbnail := "https://livestreamfails-image-prod.b-cdn.net/image/" ++ imageId
  }

/-! ## The format normalizer sort (`InfoExtractor._sort_formats`)

`_sort_formats` lives in the host framework (`common.py`), which is not part of
this repository slice. -/

/-- Lexicographic order on quadruples of integers. -/
def lex4 (x y : ℤ × ℤ × ℤ × ℤ) : Prop :=
  x.1 < y.1 ∨ x.1 = y.1 ∧ (x.2.1 < y.2.1 ∨ x.2.1 = y.2.1 ∧
    (x.2.2.1 < y.2.2.1 ∨ x.2.2.1 = y.2.2.1 ∧ x.2.2.2 ≤ y.2.2.2))

/-- Modelled from the spec: the "format/container preference" secondary key of
the sorting policy, a fixed deterministic ranking of the container hint. -/
def containerPref (f : FormatCandidate) : ℤ :=
  let e := f.ext.getD (f.format.getD (f.format_id.getD ""))
  if e = "mp4" then 3 else if e = "m3u8" then 2 else if e = "flv" then 1 else 0

/-- Modelled from the spec: the sort key of `_sort_formats` — "higher
resolution/bitrate preferred; ties broken by a stable, deterministic secondary
key (format/container preference)".  Worst-first ascending order, best last. -/
def fmtKey (f : FormatCandidate) : ℤ × ℤ × ℤ × ℤ :=
  (f.height.getD 0, f.width.getD 0, f.tbr.getD 0, containerPref f)

/-- The preorder `_sort_formats` sorts by. -/
def fmtLE (a b : FormatCandidate) : Prop := lex4 (fmtKey a) (fmtKey b)

instance : DecidableRel fmtLE := fun a b => by
  unfold fmtLE lex4
  infer_instance

instance : IsTotal FormatCandidate fmtLE :=
  ⟨fun a b => by unfold fmtLE lex4; omega⟩

instance : IsTrans FormatCandidate fmtLE :=
  ⟨fun a b c hab hbc => by unfold fmtLE lex4 at *; omega⟩

/-- Modelled from the spec: `InfoExtractor._sort_formats` (absent from src/) as
a stable sort by `fmtKey`. -/
def sortFormats (l : List FormatCandidate) : List FormatCandidate :=
  List.insertionSort fmtLE l

/-! ## nrk.py: `NRKIE._real_extract` (geo-block check, lines 41-72) -/

/-- One entry of the `webImages` array. -/
structure NrkImage where
  pixelWidth : ℕ
  imageUrl : String
deriving DecidableEq, Repr

/-- The media-element JSON of `NRKIE._real_extract`: `usageRights.isGeoBlocked`,
`mediaUrl`, `title` and `description` are accessed with `[]` (modelled as
required fields); `images` with `.get` — `none` models an absent or falsy-empty
value, `some l` a truthy dict whose `webImages` list is `l`. -/
structure NrkMediaData where
  isGeoBlocked : Bool
  mediaUrl : String
  title : String
  description : String
  images : Option (List NrkImage)
deriving DecidableEq, Repr

/-- The geo-block message raised at nrk.py line 53 (an `ExtractorError` with
`expected=True`, not a `GeoRestrictedError`). -/
def nrkGeoMessage : String :=
  "NRK har ikke rettig-heter til å vise dette programmet utenfor Norge"

/-- The record `NRKIE._real_extract` returns. -/
structure NrkRecord where
  id : String
  url : String
  ext : String
  title : String
  description : String
  thumbnail : Option String
deriving DecidableEq, Repr

/-- Model of `NRKIE._real_extract` from the media JSON onwards (nrk.py lines 52-72):
geo-blocked content raises a generic expected `ExtractorError`; otherwise the
largest `webImages` entry (stable sort by `pixelWidth`, last element) becomes
the thumbnail and a flat record is returned. -/
def nrkExtractFromData (video_id : String) (data : NrkMediaData) :
    Except PyErr NrkRecord := do
  if data.isGeoBlocked then
    .error (.extractorError nrkGeoMessage true)
  else do
    let video_url := data.mediaUrl ++ "?hdcore=3.1.1&plugin=aasp-3.1.1.69.124"
    let thumbnail : Option String ←
      match data.images with
      | some imgs =>
        match (List.insertionSort (fun a b => a.pixelWidth ≤ b.pixelWidth) imgs).getLast? with
        | some im => .ok (some im.imageUrl)
        | none => .error .indexError
      | none => .ok none
    return {
      id := video_id
      url := video_url
      ext := "flv"
      title := data.title
      description := data.description
      thumbnail := thumbnail
    }

/-! ## nrk.py: `NRKTVIE._real_extract` (lines 144-198) -/

/-- Modelled from the spec: the framework helper `float_or_none` (utils, absent from
src/) — convert when possible, absent-value on failure, never fatal. -/
def float_or_none (v : Option String) : Option ℚ :=
  v.bind pyFloat?

/-- Zero-padded two-digit decimal. -/
def pad2 (n : ℕ) : String :=
  if n < 10 then "0" ++ toString n else toString n

/-- Modelled from the spec: the framework helper `unified_strdate` (utils, absent from
src/) — parse an ISO-style `YYYY-MM-DD...` date string into `YYYYMMDD` form;
absent input or parse failure yields absent-value, never fatal. -/
def unified_strdate (v : Option String) : Option String :=
  v.bind fun s => (do
    let cs := s.toList
    let (y, cs) ← takeBoundedDigits 4 4 0 9999 cs
    let cs ← expectChar '-' cs
    let (mo, cs) ← takeBoundedDigits 2 2 1 12 cs
    let cs ← expectChar '-' cs
    let (d, _) ← takeBoundedDigits 2 2 1 31 cs
    return toString y ++ pad2 mo ++ pad2 d)

/-- The TV-page search results `NRKTVIE._real_extract` reads, one `Option`
field per non-fatal framework search (`_html_search_meta` / regex searches with
`fatal=False`, modelled from the spec: missing optional fields degrade to
absent-value). -/
structure NrkTvPage where
  titleMeta : Option String := none
  descriptionMeta : Option String := none
  posterimage : Option String := none
  rightsfrom : Option String := none
  durationAttr : Option String := none
  subtitlesurl : Option String := none
  dataMedia : Option String := none
  dataHlsMedia : Option String := none
deriving DecidableEq, Repr

/-- The record `NRKTVIE._real_extract` returns; `subtitles` is the
language-to-SRT dict built by `_extract_captions` (`none` models `{}`). -/
structure NrkTvRecord where
  id : String
  title : Option String
  description : Option String
  thumbnail : Option String
  upload_date : Option String
  duration : Option ℚ
  formats : List FormatCandidate
  subtitles : Option (String × String)
deriving DecidableEq, Repr

/-- Model of `NRKTVIE._real_extract` from the fetched page onwards (nrk.py
lines 149-198).  `fetchCaptions` abstracts `_extract_captions` (a further fetch
that can fail fatally); `listSubtitles` is the `listsubtitles` downloader flag
(early `return None`).  All optional page fields flow into the record
unchanged; none of them can abort the extraction. -/
def nrkTvExtract (video_id baseurl : String) (page : NrkTvPage)
    (fetchCaptions : String → Except PyErr (String × String))
    (listSubtitles : Bool) : Except PyErr (Option NrkTvRecord) := do
  let subtitle : Option (String × String) ←
    match page.subtitlesurl with
    | some u => (fetchCaptions (baseurl ++ u)).map some
    | none => .ok none
  let formats : List FormatCandidate :=
    (match page.dataMedia with
     | some u =>
       [{ url := u ++ "?hdcore=3.1.1&plugin=aasp-3.1.1.69.124",
          format_id := some "f4m", ext := some "flv" }]
     | none => []) ++
    (match page.dataHlsMedia with
     | some u => [{ url := u, format_id := some "m3u8" }]
     | none => [])
  if listSubtitles then
    return none
  return some {
    id := video_id
    title := page.titleMeta
    description := page.descriptionMeta
    thumbnail := page.posterimage
    upload_date := unified_strdate page.rightsfrom
    duration := float_or_none page.durationAttr
    formats := sortFormats formats
    subtitles := subtitle
  }

/-! ## appletrailers.py: `AppleTrailersIE` (lines 16 and 90-189) -/

/-- Model of the tail of `AppleTrailersIE._VALID_URL`
(`https?://(?:www\.)?trailers\.apple\.com/(?:trailers|ca)/(?P<company>[^/]+)/(?P<movie>[^/]+)`)
after the host: one alternation branch literal, then the two slash-free named
groups. -/
def appleTail (branch : List Char) (cs : List Char) : Option (String × String) := do
  let cs ← dropLit branch cs
  let (company, cs) ← takeWhile1 (fun c => c ≠ '/') cs
  let cs ← dropLit "/".toList cs
  let (movie, _) ← takeWhile1 (fun c => c ≠ '/') cs
  return (company.asString, movie.asString)

/-- Model of `re.match` against `AppleTrailersIE._VALID_URL`, returning the
named `company` and `movie` groups.  Totality models that membership testing never throws. -/
def appleMatch (url : String) : Option (String × String) := do
  let cs := url.toList
  let cs ← dropLit "http".toList cs
  let cs := dropOpt "s".toList cs
  let cs ← dropLit "://".toList cs
  let cs := dropOpt "www.".toList cs
  let cs ← dropLit "trailers.apple.com/".toList cs
  appleTail "trailers/".toList cs <|> appleTail "ca/".toList cs

/-- Model of `construct_direct_download_url` (appletrailers.py lines 143-147):
split on underscores and join with underscore-h, so every underscore gains an
`h` after it. -/
def construct_direct_download_url (first_url : String) : String :=
  (List.intercalate ['_', 'h'] (splitOnChar '_' first_url.toList)).asString

/-- The piece after the last dot of `first_url` (appletrailers.py line 149). -/
def formatExtension (first_url : String) : String :=
  ((splitOnChar '.' first_url.toList).getLastD []).asString

/-- Match `\d*p.mov` (regex `.` is any character) at the head of the input,
returning the matched run and the rest. -/
def matchDMov (cs : List Char) : Option (List Char × List Char) :=
  let ds := cs.takeWhile Char.isDigit
  match cs.drop ds.length with
  | p :: a :: m :: o :: v :: rest =>
    if p = 'p' ∧ m = 'm' ∧ o = 'o' ∧ v = 'v' then
      some (ds ++ [p, a, m, o, v], rest)
    else none
  | _ => none

/-- Fuel-driven scan for the settings-path substitution (appletrailers.py line
162): every underscore followed by a digit run, a `p`, any character and `mov`
gains an `h` after the underscore; each step consumes at least one character,
so fuel = input length suffices. -/
def subHMovAux (fuel : ℕ) (cs : List Char) : List Char :=
  match fuel, cs with
  | 0, rest => rest
  | _ + 1, [] => []
  | fuel + 1, c :: cs =>
    if c = '_' then
      match matchDMov cs with
      | some (m, rest) => '_' :: 'h' :: (m ++ subHMovAux fuel rest)
      | none => '_' :: subHMovAux fuel cs
    else c :: subHMovAux fuel cs

/-- Model of the format-URL substitution of appletrailers.py line 162. -/
def subHMov (s : String) : String :=
  (subHMovAux s.toList.length s.toList).asString

/-- Match `[0-9]+:[0-9]{1,2}` at the head of the input (greedy). -/
def minSecAt (cs : List Char) : Option (ℕ × ℕ) :=
  let ms := cs.takeWhile Char.isDigit
  if ms = [] then none
  else
    match cs.drop ms.length with
    | [] => none
    | colon :: rest =>
      if colon = ':' then
        let ss := (rest.takeWhile Char.isDigit).take 2
        if ss = [] then none else some (digitsToNat ms, digitsToNat ss)
      else none

/-- Model of the `re.search` over the runtime string (appletrailers.py line
125): leftmost occurrence, anywhere in the string, of a digit run, a colon and
one or two digits. -/
def searchMinSec : List Char → Option (ℕ × ℕ)
  | [] => none
  | c :: cs =>
    match minSecAt (c :: cs) with
    | some r => some r
    | none => searchMinSec cs

/-- One entry of the `metadata.sizes` list of the settings JSON; `width` and
`height` hold the `int_or_none` view of the JSON values. -/
structure AppleSize where
  src : String
  type : String
  width : Option Int
  height : Option Int
deriving DecidableEq, Repr

/-- The per-item settings JSON (only the `metadata.sizes` list is read). -/
structure AppleSettings where
  sizes : List AppleSize
deriving DecidableEq, Repr

/-- The embedded `iTunes.playURL(...)` JSON of one playlist item.  `url` is
read with `.get` (absent allowed); the other keys with `[]` (`KeyError` when
absent); `width`/`height` hold the `int_or_none` view of the JSON values. -/
structure TrailerInfo where
  url : Option String := none
  title : Option String := none
  posted : Option String := none
  runtime : Option String := none
  width : Option Int := none
  height : Option Int := none
deriving DecidableEq, Repr

/-- One `li` of the playlist document: its parsed trailer-info JSON and the
`src` attribute of its `img` element. -/
structure AppleItem where
  info : TrailerInfo
  imgSrc : Option String := none
deriving DecidableEq, Repr

/-- One child video record of the Apple Trailers playlist (the constant
`http_headers` dict is not modelled). -/
structure AppleEntry where
  id : String
  formats : List FormatCandidate
  title : String
  duration : Option ℕ
  thumbnail : String
  upload_date : String
  uploader_id : String
deriving DecidableEq, Repr

/-- Model of the video-id sanitizer (appletrailers.py line 120): drop every
non-alphanumeric character and lower-case the rest. -/
def sanitizeId (t : String) : String :=
  ((t.toList.filter Char.isAlphanum).map Char.toLower).asString

/-- Model of the trailer-id computation (appletrailers.py line 130): the last
path component of `first_url`, cut before its last underscore (empty when it
has none), lower-cased. -/
def trailerIdOf (u : String) : String :=
  let last := (splitOnChar '/' u.toList).getLastD []
  let before := ((last.reverse.dropWhile (fun c => c ≠ '_')).drop 1).reverse
  (before.map Char.toLower).asString

/-- Modelled from the spec: `compat_urlparse.urljoin` (compat, absent from
src/), restricted to resolving a relative path against an http(s) page URL —
everything after the last slash of the base is replaced by the relative path. -/
def urljoinModel (base rel : String) : String :=
  let kept := (base.toList.reverse.dropWhile (fun c => c ≠ '/')).reverse
  if kept = [] then rel else kept.asString ++ rel

/-- The format entry built from one settings `sizes` entry (appletrailers.py
lines 160-168). -/
def mkAppleFormat (sz : AppleSize) : FormatCandidate :=
  { url := subHMov sz.src
    format := some sz.type
    width := sz.width
    height := sz.height }

/-- The `try/except ExtractorError` around the settings fetch (appletrailers.py
lines 133-169): on an `ExtractorError` the fallback builds exactly one
candidate from the primary-page fields (`first_url`, `width`, `height`); on
success the `sizes` entries are mapped and sorted; any other exception
propagates. -/
def appleItemFormats (first_url : String) (info : TrailerInfo)
    (settingsRes : Except PyErr AppleSettings) : Except PyErr (List FormatCandidate) :=
  match settingsRes with
  | .error (.extractorError _ _) => do
    let w ← require info.width (.keyError "width")
    let h ← require info.height (.keyError "height")
    .ok [{ url := construct_direct_download_url first_url
           format := some (formatExtension first_url)
           width := some w
           height := some h }]
  | .error e => .error e
  | .ok settings => .ok (sortFormats (settings.sizes.map mkAppleFormat))

/-- The body of the per-item playlist loop over the `li` elements
(appletrailers.py lines 112-183): a missing or empty `url` in the trailer-info
JSON skips the item (`continue`, modelled by `ok none`); otherwise the child
video record is built. -/
def appleProcessItem (pageUrl movie uploader_id : String)
    (fetchSettings : String → Except PyErr AppleSettings)
    (item : AppleItem) : Except PyErr (Option AppleEntry) := do
  let info := item.info
  match info.url with
  | none => return none
  | some first_url =>
    if first_url = "" then return none
    else do
      let title ← require info.title (.keyError "title")
      let video_id := movie ++ "-" ++ sanitizeId title
      let thumbnail ← require item.imgSrc (.keyError "src")
      let posted ← require info.posted (.keyError "posted")
      let upload_date := (posted.toList.filter (fun c => c ≠ '-')).asString
      let runtime ← require info.runtime (.keyError "runtime")
      let duration : Option ℕ :=
        (searchMinSec runtime.toList).map (fun p => 60 * p.1 + p.2)
      let trailer_id := trailerIdOf first_url
      let settings_json_url :=
        urljoinModel pageUrl ("includes/settings/" ++ trailer_id ++ ".json")
      let formats ← appleItemFormats first_url info (fetchSettings settings_json_url)
      return some {
        id := video_id
        formats := formats
        title := title
        duration := duration
        thumbnail := thumbnail
        upload_date := upload_date
        uploader_id := uploader_id
      }

/-- The playlist accumulation of `AppleTrailersIE._real_extract`: skipped items
(`ok none`) contribute nothing, errors abort, other items append one entry in
order. -/
def appleEntries (pageUrl movie uploader_id : String)
    (fetchSettings : String → Except PyErr AppleSettings) :
    List AppleItem → Except PyErr (List AppleEntry)
  | [] => .ok []
  | item :: rest =>
    match appleProcessItem pageUrl movie uploader_id fetchSettings item with
    | .error e => .error e
    | .ok none => appleEntries pageUrl movie uploader_id fetchSettings rest
    | .ok (some e) =>
      match appleEntries pageUrl movie uploader_id fetchSettings rest with
      | .error err => .error err
      | .ok es => .ok (e :: es)

/-- The playlist record `AppleTrailersIE._real_extract` returns. -/
structure ApplePlaylist where
  id : String
  entries : List AppleEntry
deriving DecidableEq, Repr

/-- Model of `AppleTrailersIE._real_extract` (appletrailers.py lines 90-189) from the
parsed playlist document onwards: match the URL, process every item, wrap the
surviving entries in a playlist keyed by the `movie` group. -/
def appleRealExtract (url : String)
    (fetchSettings : String → Except PyErr AppleSettings)
    (items : List AppleItem) : Except PyErr ApplePlaylist := do
  match appleMatch url with
  | none => .error (.typeError "NoneType object has no attribute group")
  | some (company, movie) => do
    let entries ← appleEntries url movie company fetchSettings items
    return { id := movie, entries := entries }

/-! ## rai.py: `RaiBaseIE._extract_relinker_info` (lines 37-105) and
`RaiIE._real_extract` (lines 417-489) -/

/-- Python substring membership on character lists. -/
def containsLC (needle : List Char) : List Char → Bool
  | [] => needle.isPrefixOf []
  | c :: cs => needle.isPrefixOf (c :: cs) || containsLC needle cs

/-- Python `needle in hay` for strings. -/
def containsSub (needle hay : String) : Bool :=
  containsLC needle.toList hay.toList

/-- Python `str.replace(needle, repl)` — replace every occurrence, scanning
left to right; fuel = input length suffices since each step consumes at least
one character. -/
def replaceAllAux (needle repl : List Char) : ℕ → List Char → List Char
  | 0, cs => cs
  | _ + 1, [] => []
  | fuel + 1, c :: cs =>
    if needle.isPrefixOf (c :: cs) ∧ needle ≠ [] then
      repl ++ replaceAllAux needle repl fuel ((c :: cs).drop needle.length)
    else c :: replaceAllAux needle repl fuel cs

/-- Python `s.replace(needle, repl)`. -/
def replaceAll (needle repl s : String) : String :=
  (replaceAllAux needle.toList repl.toList s.toList.length s.toList).asString

/-- Modelled from the spec/framework: `determine_ext` (utils, absent from
src/) — the extension is the alphanumeric run after the last dot of the
pre-query part of the URL, else the default `unknown_video`.  (The `KNOWN_EXTENSIONS`
fallback branch is not modelled; nothing here exercises it.) -/
def determine_ext (url : String) : String :=
  if ¬ containsSub "." url then "unknown_video"
  else
    let noQuery := (splitOnChar '?' url.toList).headD []
    let guess := (splitOnChar '.' noQuery).getLastD []
    if guess ≠ [] ∧ guess.all Char.isAlphanum then guess.asString
    else "unknown_video"

/-- Modelled from the spec: `parse_duration` (utils, absent from src/) — a
plain number of seconds or a `[HH:]MM:SS` time code; absent-value on failure. -/
def parse_duration (v : Option String) : Option ℚ :=
  v.bind fun s =>
    match splitOnChar ':' s.toList with
    | [c] => pyFloatL? c
    | [b, c] => do
      let m ← pyIntL? b
      let sec ← pyFloatL? c
      return (m : ℚ) * 60 + sec
    | [a, b, c] => do
      let h ← pyIntL? a
      let m ← pyIntL? b
      let sec ← pyFloatL? c
      return (h : ℚ) * 3600 + (m : ℚ) * 60 + sec
    | _ => none

/-- Modelled from the spec/framework: `int_or_none` (utils, absent from
src/) — int conversion or absent-value. -/
def int_or_none (v : Option String) : Option ℤ :=
  v.bind pyInt?

/-- The relinker XML for one platform, as the extractor reads it:
`xpath_text(./geoprotection)`, `xpath_text(./is_live)`,
`xpath_text(./duration)`, the text of `find_xpath_attr(./url, type, content)`,
and `xpath_text(bitrate)` — each `none` when the element is absent. -/
structure RelinkerDoc where
  geoprotection : Option String := none
  is_live : Option String := none
  duration : Option String := none
  contentUrl : Option String := none
  bitrate : Option String := none
deriving DecidableEq, Repr

/-- The loop state of `_extract_relinker_info`: collected formats and the
`geoprotection` / `is_live` / `duration` accumulators (`none` = Python `None`). -/
structure RState where
  formats : List FormatCandidate := []
  geo : Option Bool := none
  live : Option Bool := none
  dur : Option ℚ := none
deriving DecidableEq, Repr

/-- The f4m manifest URL of rai.py lines 85-87: the live-hds fragment of the
media URL is rewritten to the plain manifest, then the fixed hdcore/plugin
query parameters are attached; `update_url_query` (utils, absent from src/) is
modelled from the spec as appending the query parameters. -/
def f4mManifestUrl (murl : String) : String :=
  let base := replaceAll "manifest#live_hds.f4m" "manifest.f4m" murl
  base ++ (if containsSub "?" base then "&" else "?") ++
    "hdcore=3.7.0&plugin=aasp-3.7.0.39.44"

/-- The plain-http format entry (rai.py lines 91-96).  `bitrate > 0` follows
the Python 2 comparison the code relies on: false when `bitrate` is `None`. -/
def httpFormat (doc : RelinkerDoc) (murl : String) : FormatCandidate :=
  match int_or_none doc.bitrate with
  | some b =>
    if b > 0 then
      { url := murl, tbr := some b, format_id := some ("http-" ++ toString b) }
    else { url := murl, tbr := none, format_id := some "http" }
  | none => { url := murl, tbr := none, format_id := some "http" }

/-- One iteration of the per-platform relinker loop (rai.py lines 46-96).
`em3u8` / `ef4m` abstract the framework helpers
`_extract_m3u8_formats` / `_extract_f4m_formats` (`fatal=False`, returning a
possibly-empty list).  The `geoprotection` / `is_live` / `duration`
accumulators are refreshed only while falsy, exactly as the `if not ...`
guards do. -/
def relinkerStep (em3u8 ef4m : String → List FormatCandidate)
    (st : RState) (p : String) (doc : RelinkerDoc) : RState :=
  let geo := if st.geo = some true then st.geo else some (doc.geoprotection = some "Y")
  let live := if st.live = some true then st.live else some (doc.is_live = some "Y")
  let dur := if st.dur = none ∨ st.dur = some 0 then parse_duration doc.duration else st.dur
  let formats :=
    match doc.contentUrl with
    | none => st.formats
    | some murl =>
      if containsSub "/video_no_available.mp4" murl then st.formats
      else
        let ext := determine_ext murl
        if (ext = "m3u8" ∧ p ≠ "mon") ∨ (ext = "f4m" ∧ p ≠ "flash") then st.formats
        else if ext = "m3u8" ∨ containsSub "format=m3u8" murl ∨ p = "mon" then
          st.formats ++ em3u8 murl
        else if ext = "f4m" ∨ p = "flash" then
          st.formats ++ ef4m (f4mManifestUrl murl)
        else st.formats ++ [httpFormat doc murl]
  { formats := formats, geo := geo, live := live, dur := dur }

/-- The full platform loop over the mon, flash and native platform variants;
`fetch` abstracts the per-platform XML download. -/
def relinkerScan (fetch : String → RelinkerDoc)
    (em3u8 ef4m : String → List FormatCandidate) : RState :=
  ["mon", "flash", "native"].foldl
    (fun st p => relinkerStep em3u8 ef4m st p (fetch p)) {}

/-- Constant `RaiBaseIE._GEO_COUNTRIES` (rai.py line 34). -/
def raiGeoCountries : List String := ["IT"]

/-- Whether the scheme check of rai.py line 38 succeeds: the URL starts with
the http or https scheme. -/
def startsWithHttpScheme (u : String) : Bool :=
  "http://".toList.isPrefixOf u.toList || "https://".toList.isPrefixOf u.toList

/-- The record `_extract_relinker_info` returns: the `is_live` / `duration`
keys are dropped when `None` (modelled by `Option`), `formats` is always
present. -/
structure RelinkerInfo where
  is_live : Option Bool := none
  duration : Option ℚ := none
  formats : List FormatCandidate := []
deriving DecidableEq, Repr

/-- Model of `RaiBaseIE._extract_relinker_info` (rai.py lines 37-105): a non-http(s)
relinker URL returns immediately with that raw string as the only candidate;
otherwise the platform loop runs and — when it collected no formats while
`geoprotection` is `True` — `raise_geo_restricted` raises a
`GeoRestrictedError` carrying the allowed-country list (modelled from the
GeoRestricted taxonomy of the spec; the helper lives in the framework). -/
def extract_relinker_info (fetch : String → RelinkerDoc)
    (em3u8 ef4m : String → List FormatCandidate) (relinker_url : String) :
    Except PyErr RelinkerInfo :=
  if ¬ startsWithHttpScheme relinker_url then
    .ok { formats := [{ url := relinker_url }] }
  else
    let st := relinkerScan fetch em3u8 ef4m
    if st.formats = [] ∧ st.geo = some true then
      .error (.geoRestricted raiGeoCountries)
    else
      .ok { is_live := st.live, duration := st.dur, formats := st.formats }

/-- The (abstracted) record `RaiIE._extract_from_content_id` returns for a
candidate id; only its identity matters for the candidate-loop claims. -/
structure RaiRecord where
  id : String
  title : String
deriving DecidableEq, Repr

/-- The insertion sequence of the `content_item_ids` set (rai.py lines
445-449): the page-extracted id first when present, then the URL-derived id
when distinct.  A Python `set` does **not** iterate in this order — iteration
order is unspecified (hash-dependent) — so the loop visits some permutation of
this list. -/
def raiCandidateIds (content_item_id : Option String) (video_id : String) :
    List String :=
  match content_item_id with
  | some c => if video_id = c then [c] else [c, video_id]
  | none => [video_id]

/-- The `for content_item_id in content_item_ids` loop (rai.py lines 451-457)
run on a given iteration order: a successful extraction returns immediately, a
`GeoRestrictedError` re-raises, an `ExtractorError` is swallowed and the next
candidate is tried, any other exception propagates; `none` means the loop fell
through to the relinker-URL fallback. -/
def raiTryCandidates (f : String → Except PyErr RaiRecord) :
    List String → Option (Except PyErr RaiRecord)
  | [] => none
  | id :: rest =>
    match f id with
    | .ok r => some (.ok r)
    | .error (.geoRestricted cs) => some (.error (.geoRestricted cs))
    | .error (.extractorError _ _) => raiTryCandidates f rest
    | .error e => some (.error e)

/-- Spec-style reading of the candidate loop: the first candidate in the given
order whose extraction fully succeeds. -/
def firstFullSuccess (f : String → Except PyErr RaiRecord) (ids : List String) :
    Option RaiRecord :=
  ids.findSome? fun id =>
    match f id with
    | .ok r => some r
    | .error _ => none

/-- Results of `_extract_from_content_id` that let the candidate loop continue
or return: a success or a swallowed `ExtractorError` (geo-restriction and
non-extractor exceptions abort the loop instead). -/
def benignResult : Except PyErr RaiRecord → Bool
  | .ok _ => true
  | .error (.extractorError _ _) => true
  | .error _ => false

/-! ## Concrete inputs used by the witnesses -/

/-- A candidate-id extraction oracle for which both the page-extracted id and
the URL-derived id succeed, with distinct results. -/
def raiOrderDemoF : String → Except PyErr RaiRecord := fun id =>
  if id = "a" then .ok { id := "a", title := "primary" }
  else if id = "b" then .ok { id := "b", title := "urlid" }
  else .error (.extractorError "not found" true)

/-- A relinker fetch oracle whose every platform answer signals geo-protection
and carries no content URL. -/
def raiGeoFetchW : String → RelinkerDoc := fun _ => { geoprotection := some "Y" }

/-- A manifest-expansion oracle producing no formats. -/
def noListW : String → List FormatCandidate := fun _ => []

/-- The API response of the test fixture at livestreamfails.py lines 12-25. -/
def lsfFixtureApi : LsfApi :=
  { createdAt := some "2022-06-26T19:29:45.515Z"
    sourceId := some "ConcernedLitigiousSalmonPeteZaroll-O8yo9W2L8OZEKhV2"
    videoId := some "O8yo9W2L8OZEKhV2.mp4"
    label := some "Streamer jumps off a trampoline at full speed"
    streamerLabel := some "paradeev1ch"
    imageId := some "3877b1d38db083fa25c82685bbaf645637e575ea.png" }

/-! ## Helper lemmas -/

/-- Evaluation rule for `str2seconds` on a three-piece time code whose hour and
minute pieces are well-formed integers: the seconds piece contributes its float
value, or `0` when it is malformed (`float` raised `ValueError`). -/
theorem str2seconds_eq_of_parts (t : String) (a b c : List Char) (H M : ℤ)
    (hsplit : splitOnChar ':' t.toList = [a, b, c])
    (hA : pyIntL? a = some H) (hB : pyIntL? b = some M) :
    str2seconds t = .ok ((H : ℚ) * 3600 + (M : ℚ) * 60 + (pyFloatL? c).getD 0) := by
  unfold str2seconds
  rw [hsplit]
  simp only [Option.getD_some, List.getD, List.get?, hA, hB, require]
  rfl

/-- Parsing a truthy, well-formed `createdAt` yields its `timegm` conversion. -/
theorem lsfTimestamp_parse (ts : String) (tm : StructTime)
    (hts : strptimeIsoMs ts = some tm) :
    lsfTimestamp (some ts) = .ok (some (timegm tm)) := by
  have hne : ts ≠ "" := by
    intro h
    rw [h] at hts
    have h0 : strptimeIsoMs "" = none := by decide
    rw [h0] at hts
    cases hts
  simp only [lsfTimestamp]
  rw [if_neg hne, hts]

/-- A successful `takeWhile1` always returns a non-empty run. -/
theorem takeWhile1_ne_nil {p : Char → Bool} {cs t r : List Char}
    (h : takeWhile1 p cs = some (t, r)) : t ≠ [] := by
  unfold takeWhile1 at h
  by_cases he : cs.takeWhile p = []
  · rw [if_pos he] at h; cases h
  · rw [if_neg he] at h
    cases h
    exact he

/-- A non-empty character list renders to a non-empty string. -/
theorem asString_ne_empty {t : List Char} (h : t ≠ []) : t.asString ≠ "" := by
  intro he
  apply h
  exact congrArg String.data he

/-- Both named groups produced by the apple URL tail are non-empty. -/
theorem appleTail_nonempty (br cs : List Char) (c m : String)
    (h : appleTail br cs = some (c, m)) : c ≠ "" ∧ m ≠ "" := by
  unfold appleTail at h
  simp only [Option.bind_eq_bind, Option.bind_eq_some, Option.pure_def, Option.some.injEq,
    Prod.mk.injEq] at h
  obtain ⟨a, ha, ⟨comp, r1⟩, hcomp, b, hb, ⟨mov, r2⟩, hmov, hc, hm⟩ := h
  subst hc
  subst hm
  exact ⟨asString_ne_empty (takeWhile1_ne_nil hcomp), asString_ne_empty (takeWhile1_ne_nil hmov)⟩

/-- The id group extracted by the livestreamfails matcher is non-empty. -/
theorem lsf_match_nonempty (url : String) (id : String)
    (h : lsfMatchId url = some id) : id ≠ "" := by
  unfold lsfMatchId at h
  simp only [Option.bind_eq_bind, Option.bind_eq_some, Option.pure_def, Option.some.injEq] at h
  obtain ⟨a, ha, b, hb, c, hc, ⟨ds, rest⟩, hd, hid⟩ := h
  subst hid
  exact asString_ne_empty (takeWhile1_ne_nil hd)

/-- Both named groups extracted by the apple matcher are non-empty. -/
theorem apple_match_nonempty (url : String) (c m : String)
    (h : appleMatch url = some (c, m)) : c ≠ "" ∧ m ≠ "" := by
  unfold appleMatch at h
  simp only [Option.bind_eq_bind, Option.bind_eq_some] at h
  obtain ⟨a, ha, b, hb, d, hd, hor⟩ := h
  rcases (Option.orElse_eq_some _ _ _).mp hor with h1 | ⟨_, h2⟩
  · exact appleTail_nonempty _ _ _ _ h1
  · exact appleTail_nonempty _ _ _ _ h2

/-- The candidate loop agrees with the spec-style first-success scan whenever
every candidate either succeeds or fails with a swallowed `ExtractorError`. -/
theorem raiTry_eq_firstSuccess (f : String → Except PyErr RaiRecord) :
    ∀ ids : List String, (∀ id ∈ ids, benignResult (f id) = true) →
      raiTryCandidates f ids = (firstFullSuccess f ids).map Except.ok := by
  intro ids
  induction ids with
  | nil => intro _; rfl
  | cons id rest ih =>
    intro hb
    have hid := hb id (List.mem_cons_self id rest)
    have hrest : ∀ j ∈ rest, benignResult (f j) = true :=
      fun j hj => hb j (List.mem_cons_of_mem id hj)
    unfold raiTryCandidates firstFullSuccess
    cases hf : f id with
    | ok r => simp [List.findSome?, hf]
    | error e =>
      cases e with
      | extractorError msg exp =>
        have := ih hrest
        unfold firstFullSuccess at this
        simpa [List.findSome?, hf] using this
      | geoRestricted cs => rw [hf] at hid; cases hid
      | valueError msg => rw [hf] at hid; cases hid
      | typeError msg => rw [hf] at hid; cases hid
      | indexError => rw [hf] at hid; cases hid
      | keyError k => rw [hf] at hid; cases hid

/-- An item whose trailer-info JSON has an absent or empty url is skipped
(modelled by `ok none`) before any other field of the item is touched. -/
theorem appleProcessItem_skip (pageUrl movie up : String)
    (fs : String → Except PyErr AppleSettings) (item : AppleItem)
    (h : item.info.url = none ∨ item.info.url = some "") :
    appleProcessItem pageUrl movie up fs item = .ok none := by
  rcases h with h | h
  · simp only [appleProcessItem, h]
    rfl
  · simp only [appleProcessItem, h]
    rfl

/-- With zero collected formats and geo-protection signalled, the relinker
extraction raises the geo-restriction error carrying the country list. -/
theorem rai_geo_raises (fetch : String → RelinkerDoc)
    (em ef : String → List FormatCandidate) (url : String)
    (hhttp : startsWithHttpScheme url = true)
    (hf : (relinkerScan fetch em ef).formats = [])
    (hg : (relinkerScan fetch em ef).geo = some true) :
    extract_relinker_info fetch em ef url = .error (.geoRestricted raiGeoCountries) := by
  simp only [extract_relinker_info]
  rw [if_neg (not_not_intro hhttp), if_pos ⟨hf, hg⟩]

/-- A successful relinker extraction under a geo-protection signal never has an
empty format list. -/
theorem rai_geo_no_empty_ok (fetch : String → RelinkerDoc)
    (em ef : String → List FormatCandidate) (url : String) (rec : RelinkerInfo)
    (hhttp : startsWithHttpScheme url = true)
    (hg : (relinkerScan fetch em ef).geo = some true)
    (hok : extract_relinker_info fetch em ef url = .ok rec) :
    rec.formats ≠ [] := by
  simp only [extract_relinker_info] at hok
  rw [if_neg (not_not_intro hhttp)] at hok
  by_cases hc : (relinkerScan fetch em ef).formats = [] ∧ (relinkerScan fetch em ef).geo = some true
  · rw [if_pos hc] at hok
    cases hok
  · rw [if_neg hc] at hok
    injection hok with hrec
    intro hempty
    apply hc
    constructor
    · rw [← hrec] at hempty
      exact hempty
    · exact hg

/-- Geo-blocked NRK content raises the generic expected `ExtractorError`. -/
theorem nrk_geo_generic (vid : String) (data : NrkMediaData)
    (h : data.isGeoBlocked = true) :
    nrkExtractFromData vid data = .error (.extractorError nrkGeoMessage true) := by
  unfold nrkExtractFromData
  rw [if_pos h]

/-! ## Claim theorems -/

/-- Claim C1 (corrected): when the site signals geo-protection and no usable
formats were collected, the RAI relinker extraction raises a GeoRestricted
error carrying the non-empty allowed-country list (a constructor distinct from
the generic errors) and never returns a record with an empty format list; the
NRK extractor, by contrast, raises a generic expected ExtractorError that
carries no country list.  Neither returns a media record. -/
theorem geo_zero_formats_behavior :
    (∀ (fetch : String → RelinkerDoc) (em ef : String → List FormatCandidate)
      (url : String), startsWithHttpScheme url = true →
      (relinkerScan fetch em ef).formats = [] →
      (relinkerScan fetch em ef).geo = some true →
      extract_relinker_info fetch em ef url = .error (.geoRestricted raiGeoCountries)) ∧
    (∀ (fetch : String → RelinkerDoc) (em ef : String → List FormatCandidate)
      (url : String) (rec : RelinkerInfo), startsWithHttpScheme url = true →
      (relinkerScan fetch em ef).geo = some true →
      extract_relinker_info fetch em ef url = .ok rec → rec.formats ≠ []) ∧
    (∀ (vid : String) (data : NrkMediaData), data.isGeoBlocked = true →
      nrkExtractFromData vid data = .error (.extractorError nrkGeoMessage true)) ∧
    raiGeoCountries ≠ [] ∧
    (PyErr.geoRestricted raiGeoCountries).isGeoRestrictedErr = true :=
  ⟨rai_geo_raises, rai_geo_no_empty_ok, nrk_geo_generic, by decide, by decide⟩

/-- Claim C1, witness: concrete geo-protected inputs on both extractors. -/
theorem geo_zero_formats_behavior_witness :
    extract_relinker_info raiGeoFetchW noListW noListW
        "http://mediapolis.rai.it/relinker/relinkerServlet.htm?cont=1" =
      .error (.geoRestricted raiGeoCountries) ∧
    nrkExtractFromData "154915" ⟨true, "http://m", "title", "desc", none⟩ =
      .error (.extractorError nrkGeoMessage true) :=
  ⟨geo_zero_formats_behavior.1 raiGeoFetchW noListW noListW _
      (by decide) (by decide) (by decide),
   geo_zero_formats_behavior.2.2.1 "154915" _ (by decide)⟩

/-- Claim C1, counterexample to the claim as stated: the NRK extraction at a
geo-blocked media element (which contributes zero usable formats) raises an
error that is not a GeoRestricted error and carries no allowed-country list,
so it is not distinguishable by type from a generic not-found error. -/
theorem nrk_geo_error_not_geoRestricted :
    nrkExtractFromData "150533" ⟨true, "", "t", "d", none⟩ =
      .error (.extractorError nrkGeoMessage true) ∧
    (PyErr.extractorError nrkGeoMessage true).isGeoRestrictedErr = false :=
  ⟨by decide, by decide⟩

/-- Claim C2 (confirmed): when the per-item settings fetch fails with an
extractor error and the primary page data carries width and height, the
fallback builds a format list of exactly one candidate from the primary-page
fields (the reconstructed direct URL, its extension, the width and the
height), so the format list is non-empty. -/
theorem apple_settings_fallback_single_format (first_url : String)
    (info : TrailerInfo) (sres : Except PyErr AppleSettings)
    (msg : String) (exp : Bool) (w h : Int)
    (hs : sres = .error (.extractorError msg exp))
    (hw : info.width = some w) (hh : info.height = some h) :
    appleItemFormats first_url info sres =
      .ok [{ url := construct_direct_download_url first_url
             format := some (formatExtension first_url)
             width := some w
             height := some h }] := by
  subst hs
  unfold appleItemFormats
  rw [hw, hh]
  rfl

/-- Claim C2, witness: a concrete trailer URL and dimensions; the reconstructed
direct URL gains an `h` after the underscore and the extension is `mov`. -/
theorem apple_settings_fallback_single_format_witness :
    appleItemFormats "http://movies.apple.com/media/us/manofsteel-tlr4_720p.mov"
        { width := some 640, height := some 360 }
        (.error (.extractorError "Unable to download JSON metadata" true)) =
      .ok [{ url := construct_direct_download_url
               "http://movies.apple.com/media/us/manofsteel-tlr4_720p.mov"
             format := some (formatExtension
               "http://movies.apple.com/media/us/manofsteel-tlr4_720p.mov")
             width := some 640
             height := some 360 }] ∧
    construct_direct_download_url "http://movies.apple.com/media/us/manofsteel-tlr4_720p.mov" =
      "http://movies.apple.com/media/us/manofsteel-tlr4_h720p.mov" ∧
    formatExtension "http://movies.apple.com/media/us/manofsteel-tlr4_720p.mov" = "mov" :=
  ⟨apple_settings_fallback_single_format _ _ _ _ _ _ _ rfl rfl rfl, by decide, by decide⟩

/-- Claim C3 (corrected): a three-piece time code with integer hour and minute
pieces and a parseable seconds piece evaluates to hours times 3600 plus
minutes times 60 plus the seconds value (111.52 for the example); when the
seconds piece is malformed garbage, zero is substituted for that component
only, so the result is hours times 3600 plus minutes times 60 — not zero
overall — rather than an error. -/
theorem nrk_str2seconds_behavior :
    (∀ (t : String) (a b c : List Char) (H M : ℤ) (S : ℚ),
      splitOnChar ':' t.toList = [a, b, c] →
      pyIntL? a = some H → pyIntL? b = some M → pyFloatL? c = some S →
      str2seconds t = .ok ((H : ℚ) * 3600 + (M : ℚ) * 60 + S)) ∧
    str2seconds "00:01:51.520" = .ok (2788 / 25) ∧
    (∀ (t : String) (a b c : List Char) (H M : ℤ),
      splitOnChar ':' t.toList = [a, b, c] →
      pyIntL? a = some H → pyIntL? b = some M → pyFloatL? c = none →
      str2seconds t = .ok ((H : ℚ) * 3600 + (M : ℚ) * 60)) := by
  refine ⟨?_, ?_, ?_⟩
  · intro t a b c H M S h1 h2 h3 h4
    rw [str2seconds_eq_of_parts t a b c H M h1 h2 h3, h4]
    rfl
  · have h := str2seconds_eq_of_parts "00:01:51.520" ['0','0'] ['0','1']
      ['5','1','.','5','2','0'] 0 1 (by decide) (by decide) (by decide)
    rw [h]
    have hr : pyFloatRaw? ['5','1','.','5','2','0'] = some (false, 51, 520, 3) := by decide
    rw [pyFloatL?, hr]
    norm_num [ratOfRaw]
  · intro t a b c H M h1 h2 h3 h4
    rw [str2seconds_eq_of_parts t a b c H M h1 h2 h3, h4]
    norm_num

/-- Claim C3, witness: a malformed seconds piece under non-zero hour and minute
pieces; the parser substitutes zero for the seconds component only. -/
theorem nrk_str2seconds_behavior_witness :
    str2seconds "07:02:xx" = .ok ((7 : ℚ) * 3600 + (2 : ℚ) * 60) ∧
    ((7 : ℚ) * 3600 + (2 : ℚ) * 60 = 25320) :=
  ⟨nrk_str2seconds_behavior.2.2 "07:02:xx" ['0','7'] ['0','2'] ['x','x'] 7 2
      (by decide) (by decide) (by decide) (by decide),
   by norm_num⟩

/-- Claim C3, counterexample to the claim as stated: on the duration string
00:01:xx, whose seconds field is malformed garbage, the parser returns 60
(one minute), not zero. -/
theorem nrk_str2seconds_malformed_not_zero :
    str2seconds "00:01:xx" = .ok 60 ∧ ((60 : ℚ) ≠ 0) := by
  constructor
  · have h := str2seconds_eq_of_parts "00:01:xx" ['0','0'] ['0','1'] ['x','x'] 0 1
      (by decide) (by decide) (by decide)
    rw [h]
    have hf : pyFloatL? ['x','x'] = none := by decide
    rw [hf]
    norm_num
  · norm_num

/-- Claim C4 (corrected): absent optional fields degrade to absent record
fields without aborting — in the NRK TV extractor every optional page field
(description, thumbnail, upload date, duration, subtitle URL) flows into the
record unchanged, and in the clip extractor an absent createdAt yields an
absent timestamp; but a present, unparseable createdAt aborts the clip
extraction (see the counterexample). -/
theorem optional_fields_behavior :
    (∀ (vid base : String) (page : NrkTvPage)
      (fc : String → Except PyErr (String × String)),
      page.subtitlesurl = none →
      ∃ r, nrkTvExtract vid base page fc false = .ok (some r) ∧
        r.description = page.descriptionMeta ∧
        r.thumbnail = page.posterimage ∧
        r.upload_date = unified_strdate page.rightsfrom ∧
        r.duration = float_or_none page.durationAttr ∧
        r.subtitles = none) ∧
    (∀ (id : String) (api : LsfApi) (v i : String),
      api.createdAt = none → api.videoId = some v → api.imageId = some i →
      ∃ r, lsfRealExtract id api = .ok r ∧ r.timestamp = none) := by
  constructor
  · intro vid base page fc hsub
    unfold nrkTvExtract
    rw [hsub]
    exact ⟨_, rfl, rfl, rfl, rfl, rfl, rfl⟩
  · intro id api v i hc hv hi
    unfold lsfRealExtract
    rw [hc, hv, hi]
    exact ⟨_, rfl, rfl⟩

/-- Claim C4, witness: a page with every optional field absent yields a record
with every optional field absent, and an API response without createdAt yields
an absent timestamp. -/
theorem optional_fields_behavior_witness :
    (∃ r, nrkTvExtract "MUHH48000314" "http://tv.nrk.no" {}
        (fun _ => .error .indexError) false = .ok (some r) ∧
      r.description = none ∧ r.thumbnail = none ∧ r.upload_date = none ∧
      r.duration = none ∧ r.subtitles = none) ∧
    (∃ r, lsfRealExtract "139200" { videoId := some "v", imageId := some "i" } = .ok r ∧
      r.timestamp = none) :=
  ⟨optional_fields_behavior.1 "MUHH48000314" "http://tv.nrk.no" {}
      (fun _ => .error .indexError) rfl,
   optional_fields_behavior.2 "139200" _ "v" "i" rfl rfl rfl⟩

/-- Claim C4, counterexample to the claim as stated: a present but unparseable
createdAt (an optional timestamp that fails to parse) aborts the clip
extraction with a ValueError instead of yielding a record with the field
absent. -/
theorem lsf_unparseable_timestamp_aborts :
    lsfRealExtract "1"
        { createdAt := some "not-a-date", videoId := some "v", imageId := some "i" } =
      .error (.valueError "time data does not match format") := by decide

/-- Claim C5 (confirmed): for an API response carrying a videoId and a
parseable ISO-8601 createdAt, the extractor returns a single record whose
media URL is the fixed CDN prefix concatenated with the videoId and whose
timestamp is the timezone-ignoring Unix-epoch conversion of createdAt. -/
theorem lsf_end_to_end (id : String) (api : LsfApi) (v i ts : String)
    (tm : StructTime)
    (hv : api.videoId = some v) (hi : api.imageId = some i)
    (hc : api.createdAt = some ts) (hts : strptimeIsoMs ts = some tm) :
    ∃ r, lsfRealExtract id api = .ok r ∧
      r.url = "https://livestreamfails-video-prod.b-cdn.net/video/" ++ v ∧
      r.timestamp = some (timegm tm) := by
  unfold lsfRealExtract
  rw [hc, lsfTimestamp_parse ts tm hts, hv, hi]
  exact ⟨_, rfl, rfl, rfl⟩

/-- Claim C5, witness: the test fixture of livestreamfails.py — its createdAt
converts to the documented Unix timestamp 1656271785. -/
theorem lsf_end_to_end_witness :
    (∃ r, lsfRealExtract "139200" lsfFixtureApi = .ok r ∧
      r.url = "https://livestreamfails-video-prod.b-cdn.net/video/" ++ "O8yo9W2L8OZEKhV2.mp4" ∧
      r.timestamp = some (timegm ⟨2022, 6, 26, 19, 29, 45⟩)) ∧
    timegm ⟨2022, 6, 26, 19, 29, 45⟩ = 1656271785 :=
  ⟨lsf_end_to_end "139200" lsfFixtureApi "O8yo9W2L8OZEKhV2.mp4"
      "3877b1d38db083fa25c82685bbaf645637e575ea.png"
      "2022-06-26T19:29:45.515Z" ⟨2022, 6, 26, 19, 29, 45⟩
      rfl rfl rfl (by decide),
   by decide⟩

/-- Claim C6 (confirmed): every URL accepted by a matcher yields non-empty
named groups (the livestreamfails id, the apple company and movie); rejection
is the total-function value `none`, so membership testing never throws. -/
theorem url_matchers_nonempty_id :
    (∀ (url id : String), lsfMatchId url = some id → id ≠ "") ∧
    (∀ (url c m : String), appleMatch url = some (c, m) → c ≠ "" ∧ m ≠ "") :=
  ⟨lsf_match_nonempty, apple_match_nonempty⟩

/-- Claim C6, witness: concrete matching URLs produce the expected non-empty
groups and concrete non-matching URLs produce `none`. -/
theorem url_matchers_nonempty_id_witness :
    lsfMatchId "https://livestreamfails.com/clip/139200" = some "139200" ∧
    ("139200" : String) ≠ "" ∧
    appleMatch "http://trailers.apple.com/trailers/wb/manofsteel/" =
      some ("wb", "manofsteel") ∧
    (("wb" : String) ≠ "" ∧ ("manofsteel" : String) ≠ "") ∧
    lsfMatchId "https://example.com/clip/139200" = none ∧
    appleMatch "http://trailers.apple.com/film/wb/manofsteel/" = none :=
  ⟨by decide,
   url_matchers_nonempty_id.1 "https://livestreamfails.com/clip/139200" "139200" (by decide),
   by decide,
   url_matchers_nonempty_id.2 "http://trailers.apple.com/trailers/wb/manofsteel/"
     "wb" "manofsteel" (by decide),
   by decide, by decide⟩

/-- Claim C7 (confirmed against the spec-modelled sort): the
normalization-and-sort step is a pure deterministic function; re-running it on
its own unchanged output returns the identical ordering, the output is a
permutation of the input, and it is sorted by the primary
resolution/bitrate key with the deterministic container-preference secondary
key breaking ties. -/
theorem format_sort_deterministic (l : List FormatCandidate) :
    sortFormats (sortFormats l) = sortFormats l ∧
    List.Sorted fmtLE (sortFormats l) ∧
    (sortFormats l).Perm l :=
  ⟨(List.sorted_insertionSort fmtLE l).insertionSort_eq,
   List.sorted_insertionSort fmtLE l,
   List.perm_insertionSort fmtLE l⟩

/-- Claim C8 (corrected): the candidate loop tries the distinct candidate ids
in whatever order the Python set iterates them (some permutation of the
insertion sequence) and returns the result of the first candidate in that
order whose extraction fully succeeds, provided every candidate either
succeeds or fails with a swallowed ExtractorError. -/
theorem rai_candidate_loop_amended (f : String → Except PyErr RaiRecord)
    (cid : Option String) (vid : String) (order : List String)
    (_hperm : order.Perm (raiCandidateIds cid vid))
    (hb : ∀ id ∈ order, benignResult (f id) = true) :
    raiTryCandidates f order = (firstFullSuccess f order).map Except.ok :=
  raiTry_eq_firstSuccess f order hb

/-- Claim C8, witness: the demo oracle on a reversed iteration order of the
two candidates. -/
theorem rai_candidate_loop_amended_witness :
    raiTryCandidates raiOrderDemoF ["b", "a"] =
      (firstFullSuccess raiOrderDemoF ["b", "a"]).map Except.ok :=
  rai_candidate_loop_amended raiOrderDemoF (some "a") "b" ["b", "a"]
    (by decide) (by decide)

/-- Claim C8, counterexample to the claim as stated: with a page-extracted id
a and a URL-derived id b that both fully succeed with distinct results, the
reversed order — a legal iteration order of the Python set holding the
candidates — returns the URL-derived result, not the result of the primary
extracted id, so the loop does not guarantee discovery order. -/
theorem rai_candidate_set_order_counterexample :
    raiCandidateIds (some "a") "b" = ["a", "b"] ∧
    List.Perm ["b", "a"] (raiCandidateIds (some "a") "b") ∧
    raiTryCandidates raiOrderDemoF ["b", "a"] =
      some (.ok { id := "b", title := "urlid" }) ∧
    raiTryCandidates raiOrderDemoF (raiCandidateIds (some "a") "b") =
      some (.ok { id := "a", title := "primary" }) ∧
    ({ id := "b", title := "urlid" } : RaiRecord) ≠ { id := "a", title := "primary" } :=
  ⟨by decide, by decide, by decide, by decide, by decide⟩

/-- Claim C9 (confirmed): a playlist item whose trailer-info JSON lacks a url
value (absent or empty) is silently removed from the loop — the playlist built
from any surrounding items is exactly the playlist built without the bad item,
so the extraction neither fails nor emits a child record without a media URL. -/
theorem apple_skip_missing_url (pageUrl movie up : String)
    (fs : String → Except PyErr AppleSettings) (bad : AppleItem)
    (ys : List AppleItem)
    (h : bad.info.url = none ∨ bad.info.url = some "") :
    ∀ xs : List AppleItem,
      appleEntries pageUrl movie up fs (xs ++ bad :: ys) =
        appleEntries pageUrl movie up fs (xs ++ ys) := by
  intro xs
  induction xs with
  | nil =>
    have hskip := appleProcessItem_skip pageUrl movie up fs bad h
    simp [appleEntries, hskip]
  | cons x xs ih =>
    simp only [List.cons_append, appleEntries, List.append_eq]
    rw [ih]

/-- Claim C9, witness: dropping a url-less item between two other items leaves
the playlist construction unchanged. -/
theorem apple_skip_missing_url_witness :
    appleEntries "http://trailers.apple.com/trailers/wb/manofsteel/" "manofsteel" "wb"
        (fun _ => .error (.extractorError "e" true))
        [{ info := { url := some "http://a_1.mov" } }, { info := {} },
         { info := { url := some "http://b_2.mov" } }] =
      appleEntries "http://trailers.apple.com/trailers/wb/manofsteel/" "manofsteel" "wb"
        (fun _ => .error (.extractorError "e" true))
        [{ info := { url := some "http://a_1.mov" } },
         { info := { url := some "http://b_2.mov" } }] :=
  apple_skip_missing_url "http://trailers.apple.com/trailers/wb/manofsteel/"
    "manofsteel" "wb" (fun _ => .error (.extractorError "e" true))
    { info := {} } [{ info := { url := some "http://b_2.mov" } }]
    (Or.inl rfl) [{ info := { url := some "http://a_1.mov" } }]

/-- Claim C10 (confirmed): a relinker URL that does not start with an http or
https scheme returns immediately — independently of every fetch oracle, hence
with no platform-variant fetches — a record whose format list holds exactly
one candidate carrying the raw string as URL and nothing else (no duration, no
live flag, no further metadata). -/
theorem rai_non_http_relinker_single_candidate (fetch : String → RelinkerDoc)
    (em ef : String → List FormatCandidate) (url : String)
    (h : startsWithHttpScheme url = false) :
    extract_relinker_info fetch em ef url =
      .ok { is_live := none, duration := none, formats := [{ url := url }] } := by
  unfold extract_relinker_info
  rw [if_pos]
  simp [h]

/-- Claim C10, witness: a direct MMS address with arbitrary oracles. -/
theorem rai_non_http_relinker_single_candidate_witness :
    extract_relinker_info (fun _ => {}) (fun _ => []) (fun _ => []) "mms://addr/stream" =
      .ok { is_live := none, duration := none, formats := [{ url := "mms://addr/stream" }] } :=
  rai_non_http_relinker_single_candidate (fun _ => {}) (fun _ => []) (fun _ => [])
    "mms://addr/stream" (by decide)
